import Mathlib

/-!
Shallow embedding of the release-pr action (src/main.ts).

The program resolves a cargo workspace member ("crate") from optional
name/path hints, runs cargo-release to bump its version, and opens a
release PR whose title and body are rendered from EJS templates.

External collaborators (Node's path.normalize, the WHATWG URL parser for
file URLs, the ejs renderer restricted to simple interpolation tags, the
filesystem read for template files, and process exit codes) are modelled
at their interfaces as total Lean functions; everything else is
translated directly from src/main.ts.
-/

namespace ReleasePR

/-! ### Character-list helpers (models of JS string primitives) -/

/-- Model of JavaScript String.prototype.trim on a character list:
whitespace is stripped from both ends. -/
def trimChars (cs : List Char) : List Char :=
  ((cs.dropWhile Char.isWhitespace).reverse.dropWhile Char.isWhitespace).reverse

/-- Split a character list at every occurrence of the separator character,
keeping empty segments (like String.prototype.split with a one-char
separator). -/
def splitChars (sep : Char) : List Char → List (List Char)
  | [] => [[]]
  | c :: rest =>
    let r := splitChars sep rest
    if c = sep then [] :: r
    else
      match r with
      | h :: t => (c :: h) :: t
      | [] => [[c]]

/-- Join segments with a slash between them. -/
def joinSlash : List (List Char) → List Char
  | [] => []
  | [s] => s
  | s :: rest => s ++ '/' :: joinSlash rest

/-- Whether a character list begins with a slash. -/
def isAbsChars : List Char → Bool
  | '/' :: _ => true
  | _ => false

/-- Whether a character list ends with a slash. -/
def endsWithSlash (cs : List Char) : Bool :=
  match cs.getLast? with
  | some '/' => true
  | _ => false

/-! ### path.normalize (Node posix), used at main.ts:323 and main.ts:368 -/

/-- One step of Node's normalizeString: process a single path segment
against the (reversed) stack of kept segments. Empty and dot segments are
dropped; a dot-dot segment pops the stack, except that above the root it
is dropped for absolute paths and kept for relative ones. -/
def normSegs (allowAboveRoot : Bool) (acc : List (List Char)) (seg : List Char) : List (List Char) :=
  if seg = [] ∨ seg = ['.'] then acc
  else if seg = ['.', '.'] then
    match acc with
    | [] => if allowAboveRoot then [seg] else []
    | top :: rest => if top = ['.', '.'] then seg :: acc else rest
  else seg :: acc

/-- Model of Node's path.posix.normalize: collapses `.` and `..` segments
and repeated slashes, preserving absoluteness and a trailing slash, with
the empty path and the all-dots cases mapped to `.` / `/` exactly as in
Node's implementation. -/
def normalize (p : String) : String :=
  if p = "" then "."
  else
    let cs := p.data
    let isAbs := isAbsChars cs
    let trailing := endsWithSlash cs
    let segs := ((splitChars '/' cs).foldl (normSegs !isAbs) []).reverse
    let core := joinSlash segs
    if core = [] then
      if isAbs then "/" else if trailing then "./" else "."
    else
      let core2 := if trailing then core ++ ['/'] else core
      if isAbs then String.mk ('/' :: core2) else String.mk core2

/-! ### Data model (main.ts:89-98) -/

/-- Optional name/path hints identifying the crate to release
(interface CrateArgs, main.ts:89-92). -/
structure CrateArgs where
  name : Option String
  path : Option String
  deriving DecidableEq, Repr

/-- A resolved workspace member: canonical name, normalized filesystem
path, and current version (interface CrateDetails, main.ts:94-98). -/
structure CrateDetails where
  name : String
  path : String
  version : String
  deriving DecidableEq, Repr

/-! ### Workspace member grammar (main.ts:312, main.ts:355) -/

/-- The literal characters opening the path component of a member string. -/
def memberUrlOpen : List Char := ("(path+file://").data

/-- Model of the regexp anchor `$` without the multiline flag: it also
matches just before a final newline, so one trailing newline is ignored. -/
def dropTrailingNewline (cs : List Char) : List Char :=
  match cs.getLast? with
  | some '\n' => cs.dropLast
  | _ => cs

/-- Model of matching a member string against the regular expression
of main.ts:355, written over characters:
two maximal nonempty runs of non-whitespace separated by single spaces,
then a parenthesized `path+file://` URL running to the final closing
parenthesis. On success returns the name run, the version run, and the
URL characters after the mandatory `file://` prefix (the regexp forces
that exact prefix on the third capture, so only its tail varies). The
captured tail must be nonempty and newline-free, mirroring `.+`. -/
def matchMemberChars (cs : List Char) : Option (List Char × List Char × List Char) :=
  let s0 := cs.span (fun c => !c.isWhitespace)
  match s0.1, s0.2 with
  | _ :: _, ' ' :: r1 =>
    let s1 := r1.span (fun c => !c.isWhitespace)
    match s1.1, s1.2 with
    | _ :: _, ' ' :: r3 =>
      let r4 := dropTrailingNewline r3
      match r4.getLast? with
      | some ')' =>
        let mid := r4.dropLast
        if mid.take 13 = memberUrlOpen then
          let tail := mid.drop 13
          if !tail.isEmpty && tail.all (fun ch => ch != '\n' && ch != '\r') then
            some (s0.1, s1.1, tail)
          else none
        else none
      | _ => none
    | _, _ => none
  | _, _ => none

/-! ### URL model (main.ts:363, `new URL` on a file URL) -/

/-- Model of the URL protocol accessor: the lowercased scheme before the
first colon, colon included. -/
def urlProtocol (url : String) : String :=
  String.mk ((url.data.takeWhile (fun c => c != ':')).map Char.toLower) ++ ":"

/-- Model of the URL pathname accessor for file URLs: the part after the
`file://` authority from the first slash on, with query and fragment cut
off (percent-decoding is not modelled; the action's inputs never use it). -/
def urlPathname (url : String) : String :=
  let rest := url.data.drop 7
  let rest := rest.takeWhile (fun c => c != '#')
  let rest := rest.takeWhile (fun c => c != '?')
  let path := rest.dropWhile (fun c => c != '/')
  match path with
  | [] => "/"
  | _ => String.mk path

/-! ### parseWorkspacePkg (main.ts:353-375) -/

/-- Parse one workspace member string. A string that does not match the
member grammar yields `ok none` (the source logs a warning and returns
null, i.e. the member is skipped); a matching string with a non-file URL
scheme would be a thrown error; otherwise the crate details are returned
with the URL pathname normalized. -/
def parseWorkspacePkg (pkg : String) : Except String (Option CrateDetails) :=
  match matchMemberChars pkg.data with
  | none => Except.ok none
  | some (name, version, urlTail) =>
    let url := String.mk (("file://").data ++ urlTail)
    if urlProtocol url ≠ "file:" then
      Except.error "pkgid is returning a non-local crate"
    else
      Except.ok (some { name := String.mk name
                        path := normalize (urlPathname url)
                        version := String.mk version })

/-! ### pkgid (main.ts:314-351) -/

/-- JavaScript truthiness of an optional string: absent and empty are
falsy. -/
def truthy : Option String → Bool
  | none => false
  | some s => decide (s ≠ "")

/-- The guard `crate.name && crate.name === parsed.name` (and likewise
for path) from main.ts:338-339: the hint must be present, truthy, and
equal to the member's field. -/
def hintMatches (hint : Option String) (value : String) : Bool :=
  match hint with
  | none => false
  | some h => decide (h ≠ "" ∧ h = value)

/-- The member loop of main.ts:333-342: members are parsed in listed
order; unparseable members are skipped; the first member matching either
hint is returned. A parse error (thrown inside the loop) aborts. -/
def pkgidLoop (crate : CrateArgs) : List String → Except String (Option CrateDetails)
  | [] => Except.ok none
  | pkg :: rest =>
    match parseWorkspacePkg pkg with
    | Except.error e => Except.error e
    | Except.ok none => pkgidLoop crate rest
    | Except.ok (some parsed) =>
      if hintMatches crate.name parsed.name || hintMatches crate.path parsed.path then
        Except.ok (some parsed)
      else pkgidLoop crate rest

/-- Resolve a crate from the workspace member list (main.ts:314-351).
`members` is the `workspace_members` array from the metadata query. Note
the source computes `cratePath = crate.path && normalize(crate.path)` at
main.ts:323 but only logs it; the loop compares the raw `crate.path`.
With no truthy hint, resolution succeeds only for a single-member
workspace whose sole member parses. -/
def pkgid (members : List String) (crate : CrateArgs) : Except String CrateDetails :=
  let _cratePath := crate.path.map normalize
  if truthy crate.name || truthy crate.path then
    match pkgidLoop crate members with
    | Except.error e => Except.error e
    | Except.ok (some d) => Except.ok d
    | Except.ok none => Except.error "no matching crate found"
  else
    match members with
    | [m] =>
      match parseWorkspacePkg m with
      | Except.error e => Except.error e
      | Except.ok none => Except.error "no good crate found"
      | Except.ok (some d) => Except.ok d
    | _ => Except.error "no matching crate found"

/-- findCrate (main.ts:100-126): dispatches to pkgid according to which
hints are (truthily) present; the surrounding try/catch only logs. -/
def findCrate (members : List String) (args : CrateArgs) : Except String CrateDetails :=
  if !(truthy args.name) && !(truthy args.path) then
    pkgid members { name := none, path := none }
  else if truthy args.name && !(truthy args.path) then
    pkgid members { name := args.name, path := none }
  else if !(truthy args.name) && truthy args.path then
    pkgid members { name := none, path := args.path }
  else
    pkgid members args

/-! ### runCargoRelease (main.ts:128-176) -/

/-- The external outcomes a single release run can observe: availability
of the two installer tools, exit codes of the installer and of the
cargo-release invocation, and the workspace member listing as re-queried
by pkgid after the bump. -/
structure ReleaseEnv where
  cargoReleaseAvailable : Bool
  cargoBinstallAvailable : Bool
  binstallExit : Nat
  installExit : Nat
  releaseExit : Nat
  postMembers : List String

/-- The availability / installation phase of main.ts:133-144: if
cargo-release is present nothing happens; otherwise it is installed via
cargo-binstall when available, else via cargo-install, and a non-zero
installer exit aborts. -/
def installStep (env : ReleaseEnv) : Except String Unit :=
  if env.cargoReleaseAvailable then Except.ok ()
  else if env.cargoBinstallAvailable then
    if env.binstallExit = 0 then Except.ok ()
    else Except.error ("cargo exited with code " ++ toString env.binstallExit)
  else
    if env.installExit = 0 then Except.ok ()
    else Except.error ("cargo exited with code " ++ toString env.installExit)

/-- Run the release for a resolved crate (main.ts:128-176): ensure the
tool, run it (its exit code enforced by execAndSucceed), re-resolve the
crate by its own name and path, fail when the re-resolved version equals
the pre-bump one, and otherwise return the re-resolved version. The
`version` and `branchName` arguments only feed the command line, whose
outcome the environment's `releaseExit` models. -/
def runCargoRelease (env : ReleaseEnv) (crate : CrateDetails)
    (_version _branchName : String) : Except String String :=
  match installStep env with
  | Except.error e => Except.error e
  | Except.ok _ =>
    if env.releaseExit ≠ 0 then
      Except.error ("cargo exited with code " ++ toString env.releaseExit)
    else
      match pkgid env.postMembers { name := some crate.name, path := some crate.path } with
      | Except.error e => Except.error e
      | Except.ok post =>
        if post.version = crate.version then
          Except.error "New and old versions are identical, not proceeding"
        else
          Except.ok post.version

/-! ### Template variables and rendering (main.ts:182-277) -/

/-- The `pr` block of the inputs, as exposed to templates
(main.ts:250-261). -/
structure PrVars where
  title : String
  label : Option String
  draft : Bool
  modifiable : Bool
  template : Option String
  templateFile : Option String
  mergeStrategy : String
  releaseNotes : Bool
  deriving Repr

/-- The `crate` block of TemplateVars (main.ts:262-265). -/
structure CrateVars where
  name : String
  path : String
  deriving Repr

/-- The `version` block of TemplateVars (main.ts:266-270). -/
structure VersionVars where
  previous : String
  actual : String
  desired : String
  deriving Repr

/-- Variable namespace handed to the template renderer (main.ts:249-273).
`title` is absent while the title template itself renders and is filled
in afterwards (main.ts:211). -/
structure TemplateVars where
  pr : PrVars
  crate : CrateVars
  version : VersionVars
  branchName : String
  title : Option String
  deriving Repr

/-- Resolve a dotted variable reference inside an interpolation tag
against the variable namespace. References the action's templates use are
covered; anything else renders as the empty string, matching how ejs
prints undefined values. -/
def lookupVar (vars : TemplateVars) (name : String) : String :=
  if name = "crate.name" then vars.crate.name
  else if name = "crate.path" then vars.crate.path
  else if name = "version.previous" then vars.version.previous
  else if name = "version.actual" then vars.version.actual
  else if name = "version.desired" then vars.version.desired
  else if name = "branchName" then vars.branchName
  else if name = "title" then vars.title.getD ""
  else if name = "pr.title" then vars.pr.title
  else if name = "pr.mergeStrategy" then vars.pr.mergeStrategy
  else ""

/-- Scan for the closing tag of an interpolation: returns the characters
before the first occurrence of the closing marker and the characters
after it. -/
def splitAtClose : List Char → Option (List Char × List Char)
  | [] => none
  | '%' :: '>' :: rest => some ([], rest)
  | c :: rest =>
    match splitAtClose rest with
    | some (e, r) => some (c :: e, r)
    | none => none

/-- Fuel-driven scan of a template: literal characters are copied and
each interpolation tag is replaced by the looked-up value of its trimmed
contents. An unterminated tag is left as literal text. The fuel is the
template length, which bounds the number of steps. -/
def renderAux (lk : List Char → List Char) : Nat → List Char → List Char
  | _, [] => []
  | 0, cs => cs
  | Nat.succ n, '<' :: '%' :: '=' :: rest =>
    match splitAtClose rest with
    | some (e, r) => lk (trimChars e) ++ renderAux lk n r
    | none => '<' :: '%' :: '=' :: rest
  | Nat.succ n, c :: rest => c :: renderAux lk n rest

/-- Model of the ejs renderer as used by render (main.ts:275-277),
restricted to escapeless interpolation of the variables the action
documents; this is the interface contract of the external templating
library. -/
def render (template : String) (vars : TemplateVars) : String :=
  String.mk (renderAux (fun e => (lookupVar vars (String.mk e)).data)
    template.data.length template.data)

/-- Body-template source selection of main.ts:213-227: `files` models
fs.readFile. The inline template is taken first, overwritten by the file
contents whenever a (truthy) template file path is given, and whatever
was selected falls back to the built-in default when absent or blank
after trimming. -/
def chooseTemplate (files : String → String) (templateFile template0 : Option String)
    (defaultTemplate : String) : String :=
  let template : Option String :=
    match templateFile with
    | some f => if f ≠ "" then some (files f) else template0
    | none => template0
  match template with
  | none => defaultTemplate
  | some t => if trimChars t.data = [] then defaultTemplate else t

/-- The rendering part of makePR (main.ts:190-230): assemble the variable
namespace, render the title template, inject the result as `title`,
choose the body template source, render the body, and return both
strings (which makePR then sends to the pull-request call). -/
def makePRRender (files : String → String) (defaultTemplate : String)
    (desiredVersion : String) (pr : PrVars) (crate : CrateDetails)
    (branchName newVersion : String) : String × String :=
  let vars : TemplateVars :=
    { pr := pr
      crate := { name := crate.name, path := crate.path }
      version := { previous := crate.version, actual := newVersion, desired := desiredVersion }
      branchName := branchName
      title := none }
  let title := render pr.title vars
  let vars2 : TemplateVars := { vars with title := some title }
  let template := chooseTemplate files pr.templateFile pr.template defaultTemplate
  let body := render template vars2
  (title, body)

/-! ### makeBranch and the main wiring (main.ts:26-35, 74-87) -/

/-- Git configuration inputs (from the input schema): user identity and
the release-branch naming pieces. -/
structure GitInputs where
  name : String
  email : String
  branchPrefixStr : String
  branchSeparator : String
  deriving Repr

/-- The inputs main consumes (getInputs of src/schema.ts, observed
through its uses in main.ts). -/
structure Inputs where
  githubToken : String
  version : String
  baseBranch : Option String
  crate : CrateArgs
  git : GitInputs
  pr : PrVars

/-- The branch name computed by makeBranch (main.ts:81):
`[branchPrefix, version].join(branchSeparator)`. -/
def makeBranchName (branchPrefixStr branchSeparator version : String) : String :=
  String.intercalate branchSeparator [branchPrefixStr, version]

/-- The branch name as main wires it (main.ts:28): makeBranch receives
`inputs.version` — the caller-supplied desired version, possibly a bump
keyword — because it runs before cargo-release produces the actual
version. -/
def mainBranchName (inputs : Inputs) : String :=
  makeBranchName inputs.git.branchPrefixStr inputs.git.branchSeparator inputs.version

/-! ## Theorems about the embedded program -/

/-- Any URL whose text begins with the literal `file://` has protocol
`file:` under the URL model, whatever follows. -/
theorem urlProtocol_file (t : List Char) :
    urlProtocol ⟨'f' :: 'i' :: 'l' :: 'e' :: ':' :: '/' :: '/' :: t⟩ = "file:" := rfl

/-- The member loop returns the first member, in listed order, that
parses and matches one of the hints, skipping unparseable members and
non-matching members before it. -/
theorem pkgidLoop_first (args : CrateArgs) (pre post : List String) (m : String)
    (d : CrateDetails)
    (hpre : ∀ x ∈ pre, ∃ r, parseWorkspacePkg x = Except.ok r ∧
      ∀ dd, r = some dd →
        (hintMatches args.name dd.name || hintMatches args.path dd.path) = false)
    (hm : parseWorkspacePkg m = Except.ok (some d))
    (hd : (hintMatches args.name d.name || hintMatches args.path d.path) = true) :
    pkgidLoop args (pre ++ m :: post) = Except.ok (some d) := by
  induction pre with
  | nil => simp [pkgidLoop, hm, hd]
  | cons x xs ih =>
    obtain ⟨r, hr, hno⟩ := hpre x (List.mem_cons_self _ _)
    cases r with
    | none =>
      simp only [List.cons_append, pkgidLoop, hr]
      exact ih (fun y hy => hpre y (List.mem_cons_of_mem _ hy))
    | some dd =>
      simp only [List.cons_append, pkgidLoop, hr, hno dd rfl, Bool.false_eq_true,
        if_false]
      exact ih (fun y hy => hpre y (List.mem_cons_of_mem _ hy))

/-- Claim C1. Evaluation of pkgid at the input that decides the claim:
the source computes `normalize(crate.path)` (main.ts:323) but compares
the raw `crate.path` against the members' normalized paths
(main.ts:339), so a path hint with redundant `.`/`..` segments fails to
resolve while its normalized form resolves — the two calls do not return
the same PackageDetails. -/
theorem c1_eval :
    pkgid ["pkg 1.0.0 (path+file:///w/pkg)"] ⟨none, some "/w/./pkg/../pkg"⟩
        = Except.error "no matching crate found"
      ∧ pkgid ["pkg 1.0.0 (path+file:///w/pkg)"] ⟨none, some "/w/pkg"⟩
        = Except.ok ⟨"pkg", "/w/pkg", "1.0.0"⟩
      ∧ normalize "/w/./pkg/../pkg" = "/w/pkg" :=
  ⟨rfl, rfl, rfl⟩

/-- Claim C2. If cargo-release is available and exits zero but the
re-resolved crate carries a version equal to the pre-bump one, the run
fails with the no-version-change error; and whenever the run succeeds,
the returned string is exactly the re-resolved version, which differs
from the pre-bump version. -/
theorem c2_confirmed_version (env : ReleaseEnv) (crate : CrateDetails)
    (version branchName : String) :
    (env.cargoReleaseAvailable = true → env.releaseExit = 0 →
      ∀ post, pkgid env.postMembers ⟨some crate.name, some crate.path⟩ = Except.ok post →
        post.version = crate.version →
        runCargoRelease env crate version branchName
          = Except.error "New and old versions are identical, not proceeding")
      ∧ (∀ v, runCargoRelease env crate version branchName = Except.ok v →
          ∃ post, pkgid env.postMembers ⟨some crate.name, some crate.path⟩ = Except.ok post
            ∧ v = post.version ∧ post.version ≠ crate.version) := by
  constructor
  · intro havail hexit post hpost hsame
    simp [runCargoRelease, installStep, havail, hexit, hpost, hsame]
  · intro v hv
    unfold runCargoRelease at hv
    cases hins : installStep env with
    | error e => simp only [hins] at hv; exact Except.noConfusion hv
    | ok u =>
      simp only [hins] at hv
      by_cases hre : env.releaseExit ≠ 0
      · rw [if_pos hre] at hv; exact Except.noConfusion hv
      · rw [if_neg hre] at hv
        cases hpk : pkgid env.postMembers ⟨some crate.name, some crate.path⟩ with
        | error e => simp only [hpk] at hv; exact Except.noConfusion hv
        | ok post =>
          simp only [hpk] at hv
          by_cases hsame : post.version = crate.version
          · rw [if_pos hsame] at hv; exact Except.noConfusion hv
          · rw [if_neg hsame] at hv
            injection hv with hv
            exact ⟨post, rfl, hv.symm, hsame⟩

/-- Claim C2 witness: a concrete run where the tool exits zero but
re-resolution returns the unchanged version 1.0.0 fails with the
no-version-change error. -/
theorem c2_witness :
    runCargoRelease ⟨true, false, 0, 0, 0, ["foo 1.0.0 (path+file:///w/foo)"]⟩
        ⟨"foo", "/w/foo", "1.0.0"⟩ "patch" "release-patch"
      = Except.error "New and old versions are identical, not proceeding" :=
  (c2_confirmed_version ⟨true, false, 0, 0, 0, ["foo 1.0.0 (path+file:///w/foo)"]⟩
      ⟨"foo", "/w/foo", "1.0.0"⟩ "patch" "release-patch").1 rfl rfl
    ⟨"foo", "/w/foo", "1.0.0"⟩ rfl rfl

/-- Claim C3 counterexample: with a template file given whose contents
are whitespace-only (and an inline template also present), the selected
body template is the built-in default — not the file's contents as the
claim states (and not the inline template either). -/
theorem c3_counterexample :
    chooseTemplate (fun _ => "   ") (some "tpl.ejs") (some "inline body") "DEFAULT BODY"
        = "DEFAULT BODY"
      ∧ ("DEFAULT BODY" : String) ≠ "   "
      ∧ ("DEFAULT BODY" : String) ≠ "inline body" :=
  ⟨rfl, by decide, by decide⟩

/-- Claim C3 as amended: a given template file takes precedence over the
inline template, but whichever source is selected (file contents or
inline string) still falls back to the built-in default when it is blank
after trimming; with no file, a non-blank inline template is used
verbatim; with neither, the default is used. -/
theorem c3_template_choice (files : String → String) (f t dflt : String) (hf : f ≠ "") :
    (chooseTemplate files (some f) (some t) dflt
        = if trimChars (files f).data = [] then dflt else files f)
      ∧ (chooseTemplate files (some f) none dflt
        = if trimChars (files f).data = [] then dflt else files f)
      ∧ (chooseTemplate files none (some t) dflt
        = if trimChars t.data = [] then dflt else t)
      ∧ chooseTemplate files none none dflt = dflt := by
  refine ⟨?_, ?_, ?_, ?_⟩ <;> simp [chooseTemplate, hf]

/-- Claim C3 witness: the amended choice applied to a concrete non-blank
file next to an inline template selects the file contents. -/
theorem c3_witness :
    chooseTemplate (fun _ => "file body") (some "tpl.ejs") (some "inline") "DFLT"
      = "file body" := by
  have h := (c3_template_choice (fun _ => "file body") "tpl.ejs" "inline" "DFLT"
    (by decide)).1
  simpa using h

/-- Claim C4 counterexample: a workspace with exactly one member whose
string is malformed fails to resolve with no hints, so "succeeds exactly
when the workspace has exactly one member" is false as stated. -/
theorem c4_counterexample :
    pkgid ["garbage"] ⟨none, none⟩ = Except.error "no good crate found"
      ∧ (["garbage"] : List String).length = 1 :=
  ⟨rfl, rfl⟩

/-- Claim C4 as amended: with no hints, resolution succeeds exactly when
the workspace has exactly one member and that member's string parses
under the member grammar, in which case that member is returned; with
zero members, two or more members, or a sole unparseable member, it
fails (never returning an arbitrary member). -/
theorem c4_no_hint_iff (members : List String) (d : CrateDetails) :
    pkgid members ⟨none, none⟩ = Except.ok d
      ↔ ∃ m, members = [m] ∧ parseWorkspacePkg m = Except.ok (some d) := by
  match members with
  | [] => simp [pkgid, truthy]
  | [m] =>
    cases hp : parseWorkspacePkg m with
    | error e => simp [pkgid, truthy, hp]
    | ok r =>
      cases r with
      | none => simp [pkgid, truthy, hp]
      | some dd => simp [pkgid, truthy, hp, eq_comm]
  | m1 :: m2 :: rest => simp [pkgid, truthy]

/-- Claim C4 witness: a single well-formed member resolves with no
hints. -/
theorem c4_witness :
    pkgid ["a 1.0.0 (path+file:///w/a)"] ⟨none, none⟩
      = Except.ok ⟨"a", "/w/a", "1.0.0"⟩ :=
  (c4_no_hint_iff ["a 1.0.0 (path+file:///w/a)"] ⟨"a", "/w/a", "1.0.0"⟩).mpr
    ⟨"a 1.0.0 (path+file:///w/a)", rfl, rfl⟩

/-- Claim C5. When both hints are given (truthy), resolution returns the
first member in listed order matching either the name hint or the path
hint: any members listed earlier that parse but match neither hint are
passed over, later members are never consulted, and a second member
matching the other hint is not an error (findCrate forwards to the same
lookup). -/
theorem c5_either_hint_first_match (pre post : List String) (m n p : String)
    (d : CrateDetails) (hn : n ≠ "") (hp : p ≠ "")
    (hpre : ∀ x ∈ pre, ∃ r, parseWorkspacePkg x = Except.ok r ∧
      ∀ dd, r = some dd → n ≠ dd.name ∧ p ≠ dd.path)
    (hm : parseWorkspacePkg m = Except.ok (some d))
    (hmatch : n = d.name ∨ p = d.path) :
    pkgid (pre ++ m :: post) ⟨some n, some p⟩ = Except.ok d
      ∧ findCrate (pre ++ m :: post) ⟨some n, some p⟩ = Except.ok d := by
  have hloop : pkgidLoop ⟨some n, some p⟩ (pre ++ m :: post) = Except.ok (some d) := by
    apply pkgidLoop_first
    · intro x hx
      obtain ⟨r, hr, hno⟩ := hpre x hx
      refine ⟨r, hr, fun dd hdd => ?_⟩
      obtain ⟨h1, h2⟩ := hno dd hdd
      simp [hintMatches, h1, h2]
    · exact hm
    · simp only [hintMatches, Bool.or_eq_true, decide_eq_true_eq]
      cases hmatch with
      | inl h => exact Or.inl ⟨hn, h⟩
      | inr h => exact Or.inr ⟨hp, h⟩
  have hpk : pkgid (pre ++ m :: post) ⟨some n, some p⟩ = Except.ok d := by
    simp [pkgid, truthy, hn, hloop]
  refine ⟨hpk, ?_⟩
  simpa [findCrate, truthy, hn, hp] using hpk

/-- Claim C5 witness: with name hint "a" and path hint "/w/b" naming two
different members, resolution returns the first member (matching the
name hint) and reports no mismatch error. -/
theorem c5_witness :
    pkgid ["a 1.0.0 (path+file:///w/a)", "b 2.0.0 (path+file:///w/b)"]
        ⟨some "a", some "/w/b"⟩ = Except.ok ⟨"a", "/w/a", "1.0.0"⟩
      ∧ findCrate ["a 1.0.0 (path+file:///w/a)", "b 2.0.0 (path+file:///w/b)"]
        ⟨some "a", some "/w/b"⟩ = Except.ok ⟨"a", "/w/a", "1.0.0"⟩ :=
  c5_either_hint_first_match [] ["b 2.0.0 (path+file:///w/b)"]
    "a 1.0.0 (path+file:///w/a)" "a" "/w/b" ⟨"a", "/w/a", "1.0.0"⟩
    (by decide) (by decide) (fun x hx => absurd hx (List.not_mem_nil x)) rfl
    (Or.inl rfl)

/-- Claim C6. A member string that does not match the member grammar is
skipped rather than aborting: a listing with one malformed and one
well-formed member resolves to the well-formed one under a matching name
hint, in either order, and the malformed line is fatal only in the sense
that a listing with zero matching members fails with the not-found
error. -/
theorem c6_malformed_member_skipped (bad good n : String) (d : CrateDetails)
    (hbad : matchMemberChars bad.data = none)
    (hgood : parseWorkspacePkg good = Except.ok (some d))
    (hn : n ≠ "") (hname : n = d.name) :
    pkgid [bad, good] ⟨some n, none⟩ = Except.ok d
      ∧ pkgid [good, bad] ⟨some n, none⟩ = Except.ok d
      ∧ pkgid [bad] ⟨some n, none⟩ = Except.error "no matching crate found" := by
  have hb : parseWorkspacePkg bad = Except.ok none := by
    simp [parseWorkspacePkg, hbad]
  have hmatch : (hintMatches (some n) d.name || hintMatches none d.path) = true := by
    simp only [hintMatches, Bool.or_eq_true, decide_eq_true_eq]
    exact Or.inl ⟨hn, hname⟩
  refine ⟨?_, ?_, ?_⟩
  · simp [pkgid, truthy, hn, pkgidLoop, hb, hgood, hmatch]
  · simp [pkgid, truthy, hn, pkgidLoop, hb, hgood, hmatch]
  · simp [pkgid, truthy, hn, pkgidLoop, hb]

/-- Claim C6 witness: the malformed line "BROKEN MEMBER" is skipped and
the well-formed member resolves, in either order; alone it leaves zero
matches and resolution fails. -/
theorem c6_witness :
    pkgid ["BROKEN MEMBER", "foo 1.0.0 (path+file:///w/foo)"] ⟨some "foo", none⟩
        = Except.ok ⟨"foo", "/w/foo", "1.0.0"⟩
      ∧ pkgid ["foo 1.0.0 (path+file:///w/foo)", "BROKEN MEMBER"] ⟨some "foo", none⟩
        = Except.ok ⟨"foo", "/w/foo", "1.0.0"⟩
      ∧ pkgid ["BROKEN MEMBER"] ⟨some "foo", none⟩
        = Except.error "no matching crate found" :=
  c6_malformed_member_skipped "BROKEN MEMBER" "foo 1.0.0 (path+file:///w/foo)"
    "foo" ⟨"foo", "/w/foo", "1.0.0"⟩ rfl rfl (by decide) rfl

/-- Claim C7 counterexample: a member whose path URL uses the https
scheme does not match the member grammar (which demands a literal
`file://`), so it is skipped non-fatally and resolution of another
member succeeds — resolution does not fail fatally as the claim
states. -/
theorem c7_counterexample :
    pkgid ["evil 1.0.0 (path+https://example.com/x)", "foo 1.0.0 (path+file:///w/foo)"]
        ⟨some "foo", none⟩ = Except.ok ⟨"foo", "/w/foo", "1.0.0"⟩
      ∧ matchMemberChars ("evil 1.0.0 (path+https://example.com/x)").data = none :=
  ⟨rfl, rfl⟩

/-- Claim C7 as amended: a member with a non-file scheme can never reach
the fatal non-local-crate check, because the member grammar only matches
literal `file://` URLs; such members are skipped with a warning like any
other malformed member, and parseWorkspacePkg never returns the fatal
error at all. -/
theorem c7_nonlocal_scheme_skipped (s : String) :
    (matchMemberChars s.data = none → parseWorkspacePkg s = Except.ok none)
      ∧ ∀ e, parseWorkspacePkg s ≠ Except.error e := by
  constructor
  · intro h
    simp [parseWorkspacePkg, h]
  · intro e h
    cases hm : matchMemberChars s.data with
    | none => simp [parseWorkspacePkg, hm] at h
    | some x =>
      obtain ⟨a, b, t⟩ := x
      simp [parseWorkspacePkg, hm, urlProtocol_file] at h

/-- Claim C7 witness: a string that fails the grammar parses to a
skipped (non-fatal) result. -/
theorem c7_witness : parseWorkspacePkg "not a member" = Except.ok none :=
  (c7_nonlocal_scheme_skipped "not a member").1 rfl

/-- Rendering the lone title-interpolation tag yields the injected title
variable (empty when absent, as ejs prints undefined as empty). -/
theorem render_title_var (vars : TemplateVars) :
    render "<%= title %>" vars = vars.title.getD "" := by
  show String.mk ((vars.title.getD "").data ++ ([] : List Char)) = vars.title.getD ""
  rw [List.append_nil]

/-- With no template file and the inline body template consisting of the
title tag, chooseTemplate selects that inline template. -/
theorem chooseTemplate_title_tag (files : String → String) (dflt : String) :
    chooseTemplate files none (some "<%= title %>") dflt = "<%= title %>" := rfl

/-- Claim C9. The title template renders first and its result is bound
as `title` before the body renders: for every input whose body template
is the title tag, the rendered body equals the rendered title; and on
the concrete inputs of the claim the title renders to exactly
"release: foo v1.2.3", which is exactly what the body sees. -/
theorem c9_title_rendered_first :
    (∀ (files : String → String) (dflt iv label ms prTitle : String)
        (draft modif rn : Bool) (crate : CrateDetails) (bn nv : String),
      (makePRRender files dflt iv
          ⟨prTitle, some label, draft, modif, some "<%= title %>", none, ms, rn⟩
          crate bn nv).2
        = (makePRRender files dflt iv
            ⟨prTitle, some label, draft, modif, some "<%= title %>", none, ms, rn⟩
            crate bn nv).1)
      ∧ makePRRender (fun _ => "") "DFLT" "patch"
          ⟨"release: <%= crate.name %> v<%= version.actual %>", none, false, true,
            some "<%= title %>", none, "squash", false⟩
          ⟨"foo", "/w/foo", "1.0.0"⟩ "release-patch" "1.2.3"
        = ("release: foo v1.2.3", "release: foo v1.2.3") := by
  constructor
  · intro files dflt iv label ms prTitle draft modif rn crate bn nv
    simp only [makePRRender, chooseTemplate_title_tag, render_title_var,
      Option.getD_some]
  · rfl

/-- Claim C10. The release branch name is the branch prefix, the
separator, and the caller-supplied desired version string joined in that
order; main computes it from the raw `version` input (before any bump
runs), so a bump keyword like "patch" appears verbatim in the name. -/
theorem c10_branch_name :
    (∀ (inputs : Inputs),
      mainBranchName inputs
        = inputs.git.branchPrefixStr ++ inputs.git.branchSeparator ++ inputs.version)
      ∧ makeBranchName "release" "-" "patch" = "release-patch" :=
  ⟨fun _ => rfl, rfl⟩

end ReleasePR
